import Mathlib

/-!
Verification of the movie-recommendation post-processing pipeline of the
`nx_cugraph_jaccard_movie_recommender` notebook.

The notebook's in-repo logic is: ID offsetting of the ratings table, parsing
the movie-metadata file into an id → title map, building the `ebunch` list of
node pairs for the similarity query, sorting the similarity tuples by score
descending (Python's stable `list.sort` with `reverse=True`), filtering out
already-seen movies, and reporting the top recommendation.  Everything else
(graph construction, `jaccard_coefficient`) is delegated to external
libraries and is out of scope.

Python integers are modelled as `Int`, rating/similarity scores as `ℚ`,
Python strings as `List Char`, Python dicts as association lists with
first-match lookup, and Python's stable in-place sort as `List.mergeSort`
(which is stable and left-biased on ties, matching CPython's documented
stable-sort semantics for `reverse=True`).
-/

namespace MovieRec

/-! ### Data shaping: the ratings table and the user-id offset

Source (notebook, "Reading the data" cell):
```
max_movie_id = int(ratings_df["movieId"].max())
ratings_df["userId"] = ratings_df["userId"] + max_movie_id
```
A ratings row is `(userId, movieId, rating)`; the timestamp column has
already been dropped. -/

structure Rating where
  userId : Int
  movieId : Int
  rating : ℚ
  deriving DecidableEq, Repr

/-- `int(ratings_df["movieId"].max())`: the maximum movie id of the table. -/
def maxMovieId (rs : List Rating) : Int :=
  rs.foldr (fun r acc => max r.movieId acc) 0

/-- `ratings_df["userId"] = ratings_df["userId"] + max_movie_id`:
the table with the offset applied to every user id. -/
def offsetRatings (rs : List Rating) : List Rating :=
  let m := maxMovieId rs
  rs.map (fun r => { r with userId := r.userId + m })

/-- The user-id column of a table. -/
def userIds (rs : List Rating) : List Int := rs.map Rating.userId

/-- The movie-id column of a table. -/
def movieIds (rs : List Rating) : List Int := rs.map Rating.movieId

theorem movieId_le_maxMovieId {rs : List Rating} {r : Rating} (h : r ∈ rs) :
    r.movieId ≤ maxMovieId rs := by
  induction rs with
  | nil => cases h
  | cons a t ih =>
    rcases List.mem_cons.mp h with rfl | hmem
    · exact le_max_left _ _
    · exact le_trans (ih hmem) (le_max_right _ _)

/-! ### Metadata parsing: building `movie_id_name_map`

Source (notebook, movies-CSV cell):
```
movie_id_name_map = \x7b\x7d
with open(movies_csv) as f:
    for line in f.readlines():
        # Line format is: id,title,genres
        # Title may have "," in them, and will be in quotes if so
        items = line.split(",")
        try:
            mid = int(items[0])
        except ValueError:
            continue
        mname = ",".join(items[1:-1])
        movie_id_name_map[mid] = mname
```
Strings are modelled as `List Char`.  `splitComma` models Python's
`str.split(",")` (empty fields kept; the empty string splits to `[[]]`),
`joinComma` models `",".join(...)`, and `pyInt` models `int(s)` on a
string: surrounding whitespace is stripped, then an optional sign must be
followed by a non-empty run of decimal digits (the `ValueError` case is
`none`; numeric-literal niceties such as underscores are not used by the
dataset and not modelled). -/

/-- `line.split(",")`. -/
def splitComma : List Char → List (List Char)
  | [] => [[]]
  | c :: rest =>
    match splitComma rest with
    | [] => [[c]]
    | f :: fs => if c = ',' then [] :: f :: fs else (c :: f) :: fs

/-- `",".join(fields)`. -/
def joinComma : List (List Char) → List Char
  | [] => []
  | [f] => f
  | f :: fs => f ++ ',' :: joinComma fs

def digitVal (c : Char) : Nat := c.toNat - '0'.toNat

def decDigitsToNat (ds : List Char) : Nat :=
  ds.foldl (fun acc c => 10 * acc + digitVal c) 0

def isSpaceChar (c : Char) : Bool :=
  (c == ' ') || (c == '\t') || (c == '\n') || (c == '\r')

/-- `int(s)` for a string `s`: `some n` on success, `none` for `ValueError`. -/
def pyInt (s : List Char) : Option Int :=
  let t := ((s.dropWhile isSpaceChar).reverse.dropWhile isSpaceChar).reverse
  let signed : Bool × List Char :=
    match t with
    | '-' :: ds => (true, ds)
    | '+' :: ds => (false, ds)
    | ds => (false, ds)
  let ds := signed.2
  if ds.isEmpty then none
  else if ds.all Char.isDigit then
    some (if signed.1 then -(decDigitsToNat ds : Int) else (decDigitsToNat ds : Int))
  else none

/-- A Python dict keyed by ints, holding strings: an association list where
the most recent assignment is found first. -/
abbrev Dict := List (Int × List Char)

/-- `d[k] = v` (assignment). -/
def dinsert (d : Dict) (k : Int) (v : List Char) : Dict := (k, v) :: d

/-- What `k in d` / `d[k]` see: the most recently assigned value, if any. -/
def dlookup (d : Dict) (k : Int) : Option (List Char) :=
  match d with
  | [] => none
  | (k', v) :: rest => if k' = k then some v else dlookup rest k

/-- `d[k]` as an expression: returns the stored value, raises `KeyError`
when the key is absent (the notebook installs no handler for it). -/
def dsubscript (d : Dict) (k : Int) : Except String (List Char) :=
  match dlookup d k with
  | some v => Except.ok v
  | none => Except.error "KeyError"

/-- One iteration of the metadata loop body on one line. -/
def processLine (d : Dict) (line : List Char) : Dict :=
  let items := splitComma line
  match pyInt (items.headD []) with
  | none => d
  | some mid => dinsert d mid (joinComma ((items.drop 1).dropLast))

/-- The whole loop over the file's lines, starting from map `d`. -/
def processLines (d : Dict) (lines : List (List Char)) : Dict :=
  lines.foldl processLine d

/-- `movie_id_name_map` built from the file's lines. -/
def movieIdNameMap (lines : List (List Char)) : Dict :=
  processLines [] lines

/-- The characters of a Lean string literal, for concrete instances. -/
def strChars (s : String) : List Char := s.data

/-! ### Recommendation ranking

Source (notebook, recommendation cell):
```
jacc_coeffs.sort(key=lambda t: t[2], reverse=True)
movies_seen = list(good_user_movie_G.neighbors(user))
recommendations = [mid for (_, mid, _) in jacc_coeffs
                   if mid not in movies_seen]
if len(recommendations) > 0:
    mid = recommendations[0]
    print(f"User ID \x7buser\x7d might like \x7bmovie_id_name_map[mid]\x7d "
          f"(movie ID: \x7bmid\x7d)")
```
A similarity tuple is `(anchor, candidate, score)`.  Python is dynamically
typed, so the anchor and candidate types are parameters; scores are `ℚ`.
CPython's `list.sort` is stable, and with `reverse=True` it is a stable
descending sort; `List.mergeSort` with the reversed score comparison is
exactly that (stable, left-biased on ties).  `sortDescByScore L` is the
value held by `jacc_coeffs` after the in-place `sort(...)` call. -/

variable {α β : Type}

unseal List.merge List.mergeSort

/-- The comparison `list.sort(key=lambda t: t[2], reverse=True)` sorts by. -/
def scoreGE (a b : α × β × ℚ) : Bool := decide (b.2.2 ≤ a.2.2)

/-- The list `jacc_coeffs` holds after `jacc_coeffs.sort(key=..., reverse=True)`. -/
def sortDescByScore (L : List (α × β × ℚ)) : List (α × β × ℚ) :=
  L.mergeSort scoreGE

/-- `[mid for (_, mid, _) in jacc_coeffs if mid not in movies_seen]` after
the in-place sort: the ordered recommendation list. -/
def recommendations [DecidableEq β] (L : List (α × β × ℚ)) (S : List β) : List β :=
  (sortDescByScore L).filterMap (fun t => if t.2.1 ∈ S then none else some t.2.1)

/-- The ranking output as tuples: the sorted similarity list restricted to
unseen candidates.  `recommendations` is its candidate column. -/
def rankedTuples [DecidableEq β] (L : List (α × β × ℚ)) (S : List β) :
    List (α × β × ℚ) :=
  (sortDescByScore L).filter (fun t => decide (t.2.1 ∉ S))

/-- The whole ranking step as a state transformer: its first component is
the value of `jacc_coeffs` after the step (the `sort` call mutates the list
in place), its second the `recommendations` list it binds. -/
def rankStep [DecidableEq β] (L : List (α × β × ℚ)) (S : List β) :
    List (α × β × ℚ) × List β :=
  (sortDescByScore L, recommendations L S)

/-- The top-match cell: `if len(recommendations) > 0:` report
`recommendations[0]`, else fall through (nothing is printed). -/
def topReport [DecidableEq β] (L : List (α × β × ℚ)) (S : List β) : Option β :=
  let recs := recommendations L S
  if h : 0 < recs.length then some (recs.get ⟨0, h⟩) else none

/-! ### The `ebunch` of node pairs submitted to `jaccard_coefficient`

Source (notebook):
```
ebunch = [(highest_rated_movie, n) for n in good_movie_ids[1:]
          if n != highest_rated_movie]
```
(the helper `print_similar_movies` builds its `ebunch` the same way). -/

/-- The list of (anchor, candidate) pairs handed to the similarity query. -/
def ebunch [DecidableEq α] (anchor : α) (goodMovieIds : List α) : List (α × α) :=
  ((goodMovieIds.drop 1).filter (fun n => n ≠ anchor)).map (fun n => (anchor, n))

/-! ### Helper lemmas about the sort comparison -/

theorem scoreGE_trans (a b c : α × β × ℚ) (hab : scoreGE a b) (hbc : scoreGE b c) :
    scoreGE a c := by
  simp only [scoreGE, decide_eq_true_eq] at *
  exact le_trans hbc hab

theorem scoreGE_total (a b : α × β × ℚ) : scoreGE a b || scoreGE b a := by
  simp only [scoreGE, Bool.or_eq_true, decide_eq_true_eq]
  exact le_total _ _

theorem pairwise_sortDescByScore (L : List (α × β × ℚ)) :
    (sortDescByScore L).Pairwise (fun a b => b.2.2 ≤ a.2.2) := by
  have h := List.sorted_mergeSort scoreGE_trans scoreGE_total L
  exact h.imp (fun hab => by simpa [scoreGE] using hab)

theorem sortDescByScore_filter_eq (p : α × β × ℚ → Bool)
    (hp : ∀ t u, p t = true → p u = true → scoreGE t u = true)
    (L : List (α × β × ℚ)) :
    (sortDescByScore L).filter p = L.filter p := by
  have hpair : (L.filter p).Pairwise (fun a b => scoreGE a b = true) :=
    List.pairwise_of_forall_mem_list (fun a ha b hb =>
      hp a b (List.of_mem_filter ha) (List.of_mem_filter hb))
  have hsub : List.Sublist (L.filter p) L := List.filter_sublist L
  have h1 : List.Sublist (L.filter p) (sortDescByScore L) :=
    List.sublist_mergeSort scoreGE_trans scoreGE_total hpair hsub
  have h2 : (L.filter p).filter p = L.filter p :=
    List.filter_eq_self.mpr (fun a ha => List.of_mem_filter ha)
  have h3 : List.Sublist (L.filter p) ((sortDescByScore L).filter p) := by
    rw [← h2]
    exact h1.filter p
  have hlen : ((sortDescByScore L).filter p).length = (L.filter p).length := by
    rw [← List.countP_eq_length_filter, ← List.countP_eq_length_filter]
    exact (List.mergeSort_perm L scoreGE).countP_eq p
  exact (h3.eq_of_length hlen.symm).symm

theorem dlookup_dinsert_self (d : Dict) (k : Int) (v : List Char) :
    dlookup (dinsert d k v) k = some v := by
  simp [dlookup, dinsert]

/-! ### The claims -/

/-- Claim C1: for every similarity list `L` and every seen-set `S`, the
recommendation ranking produced from `L` and `S` never contains a candidate
id that is an element of `S`. -/
theorem recommendations_excludes_seen [DecidableEq β]
    (L : List (α × β × ℚ)) (S : List β) (m : β)
    (hm : m ∈ recommendations L S) : m ∉ S := by
  rcases List.mem_filterMap.mp hm with ⟨t, _, hf⟩
  by_cases hts : t.2.1 ∈ S
  · simp [hts] at hf
  · rw [if_neg hts] at hf
    injection hf with h
    rwa [← h]

/-- Witness for C1 at a concrete input: candidate 5 is recommended and is
not in the seen-set `[1]`. -/
theorem recommendations_excludes_seen_witness :
    (5 : Int) ∈ recommendations [((0:Int),(1:Int),(2:ℚ)), (0,5,(3:ℚ))] [(1:Int)] ∧
      (5 : Int) ∉ [(1:Int)] :=
  ⟨by decide,
    recommendations_excludes_seen [((0:Int),(1:Int),(2:ℚ)), (0,5,(3:ℚ))] [(1:Int)] 5
      (by decide)⟩

/-- Claim C2: for every similarity list `L` with at least two distinct
scores and every seen-set `S`, the ranking output is ordered by score in
non-increasing order: at any two output positions `i < j`, the score of
the tuple at position `i` is at least the score of the one at `j`. -/
theorem rankedTuples_sorted_desc [DecidableEq β]
    (L : List (α × β × ℚ)) (S : List β)
    (_hdist : ∃ t1 ∈ L, ∃ t2 ∈ L, t1.2.2 ≠ t2.2.2)
    (i j : Fin (rankedTuples L S).length) (hij : i < j) :
    ((rankedTuples L S).get j).2.2 ≤ ((rankedTuples L S).get i).2.2 := by
  have hp : (rankedTuples L S).Pairwise (fun a b => b.2.2 ≤ a.2.2) :=
    List.Pairwise.sublist (List.filter_sublist _) (pairwise_sortDescByScore L)
  exact List.pairwise_iff_get.mp hp i j hij

/-- Witness for C2 at a concrete input with two distinct scores. -/
theorem rankedTuples_sorted_desc_witness :
    (∃ t1 ∈ [((0:Int),(1:Int),(2:ℚ)), (0,2,(3:ℚ))],
        ∃ t2 ∈ [((0:Int),(1:Int),(2:ℚ)), (0,2,(3:ℚ))], t1.2.2 ≠ t2.2.2) ∧
      ((rankedTuples [((0:Int),(1:Int),(2:ℚ)), (0,2,(3:ℚ))] ([] : List Int)).get
            ⟨1, by decide⟩).2.2 ≤
        ((rankedTuples [((0:Int),(1:Int),(2:ℚ)), (0,2,(3:ℚ))] ([] : List Int)).get
            ⟨0, by decide⟩).2.2 :=
  ⟨by decide,
    rankedTuples_sorted_desc [((0:Int),(1:Int),(2:ℚ)), (0,2,(3:ℚ))] ([] : List Int)
      (by decide) ⟨0, by decide⟩ ⟨1, by decide⟩ (by decide)⟩

/-- Claim C3: the ranking sort is stable — tuples of `L` with equal scores
keep their relative order in the ranking output (for each score `s`, the
output tuples of score `s` are exactly the unseen input tuples of score
`s`, in input order); in particular the input
`[(A,"x",0.9), (A,"y",0.5), (A,"z",0.9)]` with empty seen-set yields
`["x", "z", "y"]`. -/
theorem ranking_stable_ties :
    (∀ (γ δ : Type) [DecidableEq δ] (L : List (γ × δ × ℚ)) (S : List δ) (s : ℚ),
        (rankedTuples L S).filter (fun t => decide (t.2.2 = s)) =
          (L.filter (fun t => decide (t.2.1 ∉ S))).filter
            (fun t => decide (t.2.2 = s))) ∧
      recommendations [("A", "x", (9:ℚ)/10), ("A", "y", (1:ℚ)/2), ("A", "z", (9:ℚ)/10)]
          ([] : List String) =
        ["x", "z", "y"] := by
  constructor
  · intro γ δ _ L S s
    unfold rankedTuples
    rw [List.filter_filter, List.filter_filter]
    refine sortDescByScore_filter_eq _ (fun t u ht hu => ?_) L
    simp only [Bool.and_eq_true, decide_eq_true_eq] at ht hu
    simp only [scoreGE, decide_eq_true_eq]
    rw [ht.1, hu.1]
  · norm_num [recommendations, sortDescByScore, List.mergeSort, List.merge, scoreGE,
      List.filterMap_cons]

/-- Claim C4, counterexample: with an empty similarity list the ranked
sequence is empty, yet the top-match cell reports nothing at all — its
`if len(recommendations) > 0:` has no `else` branch, so no "no
recommendation available" condition is signalled. -/
theorem topReport_empty_silent_cex :
    recommendations ([] : List (Int × Int × ℚ)) ([] : List Int) = [] ∧
      topReport ([] : List (Int × Int × ℚ)) ([] : List Int) = none :=
  ⟨rfl, rfl⟩

/-- Claim C4 as amended: if the ranked sequence is non-empty its first
element is reported; if it is empty, the step produces no report at all
(it is silently skipped — no signal is emitted). -/
theorem topReport_amended [DecidableEq β] (L : List (α × β × ℚ)) (S : List β) :
    topReport L S = (recommendations L S).head? := by
  unfold topReport
  cases h : recommendations L S with
  | nil => simp [h]
  | cons a t => simp [h]

/-- Claim C5, counterexample: the ranking step does have a side effect —
`jacc_coeffs.sort(...)` sorts the list in place, so after the step the
similarity list differs from the input `L`. -/
theorem rankStep_mutates_cex :
    (rankStep [((0:Int),(1:Int),(2:ℚ)), (0,2,(3:ℚ))] ([] : List Int)).1 ≠
      [((0:Int),(1:Int),(2:ℚ)), (0,2,(3:ℚ))] := by
  decide

/-- Claim C5 as amended: the ranking step is deterministic in `(L, S)` but
mutates the similarity list in place by sorting it; the mutated list is a
permutation of the original (same tuples, reordered), and no other state
is touched. -/
theorem rankStep_perm [DecidableEq β] (L : List (α × β × ℚ)) (S : List β) :
    ((rankStep L S).1).Perm L :=
  List.mergeSort_perm L scoreGE

/-- Claim C6: the code builds `ebunch` from `good_movie_ids[1:]`, silently
dropping the first good movie id.  With good movie ids `[10, 20]` and
anchor `20`, candidate `10` is a good movie distinct from the anchor yet
no pair at all is submitted; with `[10, 20, 30]` and anchor `20`, the pair
`(20, 10)` is missing.  This contradicts the claim (and the code comment
"compare the \x2e\x2e\x2e movie to all other movies in the graph"). -/
theorem ebunch_misses_first_good_movie :
    ebunch (20 : Int) [10, 20] = [] ∧
      ((10 : Int) ∈ [(10 : Int), 20] ∧ (10 : Int) ≠ 20) ∧
      ((20 : Int), (10 : Int)) ∉ ebunch (20 : Int) [10, 20, 30] := by
  decide

/-- Claim C7: if every raw user id and movie id of the ratings table is a
positive integer, then after the additive offset by the maximum movie id
the set of user ids and the set of movie ids of the table are disjoint. -/
theorem offset_userIds_disjoint_movieIds (rs : List Rating)
    (hpos : ∀ r ∈ rs, 1 ≤ r.userId ∧ 1 ≤ r.movieId)
    (v : Int) (hv : v ∈ userIds (offsetRatings rs)) :
    v ∉ movieIds (offsetRatings rs) := by
  intro hm
  rcases List.mem_map.mp hv with ⟨r1, hr1, hv1⟩
  rcases List.mem_map.mp hm with ⟨r2, hr2, hm2⟩
  rcases List.mem_map.mp hr1 with ⟨u, hu, hu1⟩
  rcases List.mem_map.mp hr2 with ⟨w, hw, hw1⟩
  have husr : r1.userId = u.userId + maxMovieId rs := by rw [← hu1]
  have hmov : r2.movieId = w.movieId := by rw [← hw1]
  have h1 : 1 ≤ u.userId := (hpos u hu).1
  have h2 : w.movieId ≤ maxMovieId rs := movieId_le_maxMovieId hw
  have : w.movieId = u.userId + maxMovieId rs := by
    rw [← hmov, hm2, ← hv1, husr]
  omega

/-- Witness for C7: a concrete two-row table with positive ids; the offset
user id 4 is not among the movie ids. -/
theorem offset_userIds_disjoint_movieIds_witness :
    (∀ r ∈ [Rating.mk 1 1 5, Rating.mk 2 3 4], 1 ≤ r.userId ∧ 1 ≤ r.movieId) ∧
      (4 : Int) ∈ userIds (offsetRatings [Rating.mk 1 1 5, Rating.mk 2 3 4]) ∧
      (4 : Int) ∉ movieIds (offsetRatings [Rating.mk 1 1 5, Rating.mk 2 3 4]) :=
  ⟨by decide, by decide,
    offset_userIds_disjoint_movieIds [Rating.mk 1 1 5, Rating.mk 2 3 4]
      (by decide) 4 (by decide)⟩

/-- Claim C8: subscripting the id-to-title map with a present key returns
the stored label, and subscripting with an absent key raises `KeyError`
(for which the notebook installs no handler): the lookup raises exactly
when the key is absent. -/
theorem dict_subscript_ok_iff_present (d : Dict) (k : Int) :
    (∀ v, dlookup d k = some v → dsubscript d k = Except.ok v) ∧
      (dlookup d k = none → dsubscript d k = Except.error "KeyError") ∧
      (dsubscript d k = Except.error "KeyError" ↔ dlookup d k = none) := by
  refine ⟨fun v hv => ?_, fun hn => ?_, ?_⟩
  · rw [dsubscript, hv]
  · rw [dsubscript, hn]
  · constructor
    · intro he
      cases hl : dlookup d k with
      | none => rfl
      | some v => rw [dsubscript, hl] at he; cases he
    · intro hn
      rw [dsubscript, hn]

/-- Witness for C8, the scenario of the specification: in the mapping
`\x7b1907: "Mulan (1998)"\x7d`, key 1907 returns the stored title and the
absent key 1 raises `KeyError`. -/
theorem dict_subscript_ok_iff_present_witness :
    dsubscript (dinsert [] 1907 (strChars "Mulan (1998)")) 1907 =
        Except.ok (strChars "Mulan (1998)") ∧
      dsubscript (dinsert [] 1907 (strChars "Mulan (1998)")) 1 =
        Except.error "KeyError" :=
  ⟨(dict_subscript_ok_iff_present (dinsert [] 1907 (strChars "Mulan (1998)")) 1907).1
      (strChars "Mulan (1998)") (by decide),
    (dict_subscript_ok_iff_present (dinsert [] 1907 (strChars "Mulan (1998)")) 1).2.1
      (by decide)⟩

/-- Claim C9: a metadata line whose leading comma-separated field does not
parse as an integer is skipped silently — it adds no entry to the map, and
the loop continues with the remaining lines unchanged. -/
theorem malformed_line_skipped (d : Dict) (line : List Char)
    (rest : List (List Char))
    (hbad : pyInt ((splitComma line).headD []) = none) :
    processLine d line = d ∧ processLines d (line :: rest) = processLines d rest := by
  have hskip : processLine d line = d := by
    rw [processLine]
    rw [hbad]
  exact ⟨hskip, by rw [processLines, List.foldl_cons, hskip]; rfl⟩

/-- Witness for C9: the header-like line `abc,Title,Genre` has an
unparseable leading field and leaves the (empty) map unchanged. -/
theorem malformed_line_skipped_witness :
    pyInt ((splitComma (strChars "abc,Title,Genre")).headD []) = none ∧
      processLine [] (strChars "abc,Title,Genre") = [] ∧
      processLines [] [strChars "abc,Title,Genre"] = processLines [] [] :=
  ⟨by decide,
    (malformed_line_skipped [] (strChars "abc,Title,Genre") [] (by decide)).1,
    (malformed_line_skipped [] (strChars "abc,Title,Genre") [] (by decide)).2⟩

/-- Claim C10: for a metadata line splitting into `k ≥ 2` comma-separated
fields whose first field parses as the integer `mid`, the map stores under
`mid` exactly the comma-join of fields 1 through `k-2` — the final
(genres) field is dropped and a comma-containing quoted title is stored
verbatim, quotes included, since the join restores the split exactly; for
`k = 2` the stored label is empty; and a later line with the same id
overwrites the earlier entry. -/
theorem metadata_label_construction (d : Dict) (line : List Char) (mid : Int)
    (hmid : pyInt ((splitComma line).headD []) = some mid)
    (_hk : 2 ≤ (splitComma line).length) :
    dlookup (processLine d line) mid =
        some (joinComma (((splitComma line).drop 1).dropLast)) ∧
      ((splitComma line).length = 2 → dlookup (processLine d line) mid = some []) ∧
      ∀ line2, pyInt ((splitComma line2).headD []) = some mid →
        dlookup (processLine (processLine d line) line2) mid =
          some (joinComma (((splitComma line2).drop 1).dropLast)) := by
  have h1 : dlookup (processLine d line) mid =
      some (joinComma (((splitComma line).drop 1).dropLast)) := by
    rw [processLine]
    rw [hmid]
    exact dlookup_dinsert_self d mid _
  refine ⟨h1, fun h2 => ?_, fun line2 hmid2 => ?_⟩
  · have hlen : (((splitComma line).drop 1).dropLast).length = 0 := by
      rw [List.length_dropLast, List.length_drop, h2]
    rw [h1, List.length_eq_zero.mp hlen]
    rfl
  · rw [processLine]
    rw [hmid2]
    exact dlookup_dinsert_self _ mid _

/-- Witness for C10: a quoted comma-containing title is stored verbatim
with its quotes and without the genres field; a two-field line stores the
empty label; a repeated id keeps the later label. -/
theorem metadata_label_construction_witness :
    pyInt ((splitComma (strChars "11,\"American President, The (1995)\",Comedy")).headD [])
        = some 11 ∧
      2 ≤ (splitComma (strChars "11,\"American President, The (1995)\",Comedy")).length ∧
      dlookup (processLine [] (strChars "11,\"American President, The (1995)\",Comedy")) 11
        = some (strChars "\"American President, The (1995)\"") ∧
      dlookup (processLine [] (strChars "7,Comedy")) 7 = some [] ∧
      dlookup (processLine (processLine [] (strChars "5,A,g")) (strChars "5,B,g")) 5
        = some (strChars "B") :=
  ⟨by decide, by decide,
    (metadata_label_construction []
        (strChars "11,\"American President, The (1995)\",Comedy") 11
        (by decide) (by decide)).1.trans (by decide),
    (metadata_label_construction [] (strChars "7,Comedy") 7
        (by decide) (by decide)).2.1 (by decide),
    ((metadata_label_construction [] (strChars "5,A,g") 5
        (by decide) (by decide)).2.2 (strChars "5,B,g") (by decide)).trans (by decide)⟩

end MovieRec
